import Mathlib

/-!
Verification development for the painting-consultation session-synchronization
protocol: the WebSocket message handler registered in `registerRoutes`
(src/auth.tsx) together with the session store operations of `DbStorage`
(src/unnamed/part_001).  The TypeScript source is embedded shallowly:

* JavaScript strings are Lean `String`s; `toLowerCase`/`startsWith` are
  modelled on the underlying character list (`jsToLower`, `jsStartsWith`),
  which agrees with JavaScript on the ASCII identifiers this protocol uses.
* A JavaScript object used as an open map (`brief.constraints`) is an
  association list in insertion order; the computed-key spread
  `{...obj, [k]: v}` is `jsSet`.
* Fields that may be absent from a parsed JSON frame are `Option`s; reading
  a template literal from a possibly-absent field renders `undefined`
  (`jsShow`), and calling `.toLowerCase()` on an absent field throws, which
  the embedding surfaces as the error component of `handleParsed`.
* The store operations are keyed throughout by the one session id the
  connection is bound to, so the store state threaded through the handler is
  the `Option Session` entry for that id.
-/

/-- Approval event from shared/schema: `{ts, text}`. -/
structure Approval where
  ts : Int
  text : String
deriving Repr, DecidableEq

/-- Conversation turn from shared/schema (`MessageSchema`). -/
structure ChatMessage where
  role : String
  text : String
  ts : Int
deriving Repr, DecidableEq

/-- Todo item from shared/schema (`TodoSchema`). -/
structure Todo where
  id : String
  text : String
  status : String
deriving Repr, DecidableEq

/-- PaintingBrief from shared/schema: scalar fields are nullable strings,
`constraints` is an open string-keyed object whose values here are the
(possibly `undefined`) option ids written by the handler. -/
structure PaintingBrief where
  style : Option String
  palette : Option String
  finish : Option String
  vibe : List String
  rooms : List String
  constraints : List (String × Option String)
  timeline : Option String
  budget : Option String
  openQuestions : List String
deriving Repr, DecidableEq

/-- The `updates` argument of `DbStorage.updateBrief`
(`Partial<PaintingBrief>`): every key may be absent (`none`) or present with
a replacement value. -/
structure BriefUpdates where
  style : Option (Option String) := none
  palette : Option (Option String) := none
  finish : Option (Option String) := none
  vibe : Option (List String) := none
  rooms : Option (List String) := none
  constraints : Option (List (String × Option String)) := none
  timeline : Option (Option String) := none
  budget : Option (Option String) := none
  openQuestions : Option (List String) := none
deriving Repr, DecidableEq

/-- Session from shared/schema (`SessionSchema`). -/
structure Session where
  id : String
  createdAt : Int
  messages : List ChatMessage
  brief : PaintingBrief
  todos : List Todo
  approvals : List Approval
deriving Repr, DecidableEq

/-- JavaScript `String.prototype.toLowerCase` on the character list (ASCII
case mapping, which is all the handler's prompt ids use). -/
def jsToLower (s : String) : String :=
  ⟨s.data.map Char.toLower⟩

/-- JavaScript `String.prototype.startsWith` on the character list. -/
def jsStartsWith (s pre : String) : Bool :=
  pre.data.isPrefixOf s.data

/-- Rendering of a possibly-absent string field inside a template literal:
an absent field prints as `undefined`. -/
def jsShow : Option String → String
  | none => "undefined"
  | some s => s

/-- Rendering of a possibly-absent boolean field inside a template literal. -/
def jsShowBool : Option Bool → String
  | none => "undefined"
  | some true => "true"
  | some false => "false"

/-- JavaScript computed-key object spread `{...m, [k]: v}`: if `k` is already
a key its value is replaced in place, otherwise `(k, v)` is appended. -/
def jsSet : List (String × Option String) → String → Option String →
    List (String × Option String)
  | [], k, v => [(k, v)]
  | (k1, v1) :: rest, k, v =>
    if k1 = k then (k, v) :: rest else (k1, v1) :: jsSet rest k v

/-- Empty brief constructed by `DbStorage.createSession`. -/
def emptyBrief : PaintingBrief :=
  { style := none, palette := none, finish := none, vibe := [], rooms := [],
    constraints := [], timeline := none, budget := none, openQuestions := [] }

/-- DbStorage.createSession: fresh session with empty brief, todos and
approvals. -/
def createSession (id : String) (now : Int) : Session :=
  { id := id, createdAt := now, messages := [], brief := emptyBrief,
    todos := [], approvals := [] }

/-- The object spread `{ ...session.brief, ...updates }` performed by
`DbStorage.updateBrief`: every key present in `updates` replaces the current
value wholesale, keys absent from `updates` are left untouched. -/
def mergeBrief (b : PaintingBrief) (u : BriefUpdates) : PaintingBrief :=
  { style := u.style.getD b.style,
    palette := u.palette.getD b.palette,
    finish := u.finish.getD b.finish,
    vibe := u.vibe.getD b.vibe,
    rooms := u.rooms.getD b.rooms,
    constraints := u.constraints.getD b.constraints,
    timeline := u.timeline.getD b.timeline,
    budget := u.budget.getD b.budget,
    openQuestions := u.openQuestions.getD b.openQuestions }

/-- DbStorage.updateBrief restricted to the bound session's store entry:
returns `undefined` when the session is missing, otherwise writes the
spread brief back. -/
def updateBrief (sess : Option Session) (u : BriefUpdates) : Option Session :=
  match sess with
  | none => none
  | some s => some { s with brief := mergeBrief s.brief u }

/-- DbStorage.addApproval restricted to the bound session's store entry:
pushes the approval onto the session's approvals array. -/
def addApproval (sess : Option Session) (a : Approval) : Option Session :=
  match sess with
  | none => none
  | some s => some { s with approvals := s.approvals ++ [a] }

/-- Inbound WebSocket frame after `data.toString()`: either `JSON.parse`
throws (`invalidJson` carries the parse error text), or the frame is a JSON
object of which the handler reads the fields `type`, `promptId`,
`selectedOptionId`, `ok`, `message` and `ts`, each possibly absent. -/
inductive Frame where
  | invalidJson (err : String)
  | obj (ty : Option String) (promptId : Option String)
      (selectedOptionId : Option String) (ok : Option Bool)
      (message : Option String) (ts : Option Int)
deriving Repr, DecidableEq

/-- Outbound WebSocket messages sent by the handler. -/
inductive OutMsg where
  | pong (ts : Option Int)
  | todoPreview (items : List String)
  | callFinished (sessionId : String)
  | error (err : String)
deriving Repr, DecidableEq

/-- The fixed fallback list sent as `TODO_PREVIEW.items` on
`TODO_CONFIRM{ok:false}` (src/auth.tsx lines 447-456). -/
def fallbackTodoItems : List String :=
  ["Review and finalize painting style preferences",
   "Confirm color palette selections",
   "Schedule initial consultation call",
   "Review project timeline and milestones",
   "Prepare room measurements and photos"]

/-- Error text for the `TypeError` raised when `message.promptId` is absent
and the handler calls `.toLowerCase()` on it (src/auth.tsx line 413). -/
def promptIdTypeError : String :=
  "TypeError: Cannot read properties of undefined (reading toLowerCase)"

/-- Body of the `ws.on(message)` handler for a parsed JSON object frame,
before the surrounding try/catch.  Returns the bound session's store entry
after the mutations applied so far, the outbound messages sent, the close
directive if `ws.close` was called, and the error thrown, if any (mutations
and sends performed before the throw are retained). -/
def handleParsed (now : Int) (sid : String) (sess : Option Session)
    (ty promptId selectedOptionId : Option String) (ok : Option Bool)
    (msg : Option String) (tsv : Option Int) :
    Option Session × List OutMsg × Option (Nat × String) × Option String :=
  if ty = some "UI_RESPONSE" then
    let s1 := addApproval sess
      ⟨now, "UI_RESPONSE " ++ jsShow promptId ++ " -> " ++ jsShow selectedOptionId⟩
    match promptId with
    | none => (s1, [], none, some promptIdTypeError)
    | some pid =>
      let p := jsToLower pid
      if jsStartsWith p "style" then
        (updateBrief s1 { style := some selectedOptionId }, [], none, none)
      else if jsStartsWith p "palette" then
        (updateBrief s1 { palette := some selectedOptionId }, [], none, none)
      else if jsStartsWith p "finish" then
        (updateBrief s1 { finish := some selectedOptionId }, [], none, none)
      else
        match s1 with
        | none => (s1, [], none, none)
        | some cur =>
          let constraints := jsSet cur.brief.constraints pid selectedOptionId
          (updateBrief s1 { constraints := some constraints }, [], none, none)
  else if ty = some "TODO_CONFIRM" then
    let s1 := addApproval sess ⟨now, "TODO_CONFIRM ok=" ++ jsShowBool ok⟩
    if ok = some true then
      (s1, [OutMsg.callFinished sid], some (1000, "Call finished"), none)
    else
      (s1, [OutMsg.todoPreview fallbackTodoItems], none, none)
  else if ty = some "AGENT_NOTE" then
    let noteMessage := msg.getD ""
    if noteMessage = "" then
      (sess, [], none, none)
    else
      (addApproval sess ⟨now, "AGENT_NOTE: " ++ noteMessage⟩, [], none, none)
  else if ty = some "PING" then
    (sess, [OutMsg.pong tsv], none, none)
  else
    (sess, [], none, none)

/-- Handling of one inbound frame, including `JSON.parse` and the
surrounding try/catch: a thrown error is reported back as an `ERROR`
outbound message and does not close the connection. -/
def handleFrame (now : Int) (sid : String) (sess : Option Session)
    (f : Frame) : Option Session × List OutMsg × Option (Nat × String) :=
  match f with
  | Frame.invalidJson e => (sess, [OutMsg.error e], none)
  | Frame.obj ty pid sel ok msg ts =>
    match handleParsed now sid sess ty pid sel ok msg ts with
    | (s1, out, cl, none) => (s1, out, cl)
    | (s1, out, cl, some e) => (s1, out ++ [OutMsg.error e], cl)

/-- Connection loop: frames (paired with their arrival time) are processed
strictly in order; once the handler has issued a close directive the
connection is closed and no later frame is processed. -/
def runConn (sid : String) :
    Option Session → List (Int × Frame) →
    Option Session × List OutMsg × Option (Nat × String)
  | sess, [] => (sess, [], none)
  | sess, (now, f) :: rest =>
    match handleFrame now sid sess f with
    | (s1, out, some c) => (s1, out, some c)
    | (s1, out, none) =>
      match runConn sid s1 rest with
      | (s2, out2, cl2) => (s2, out ++ out2, cl2)

/-- Number of approvals recorded in the bound session's store entry after a
handler result. -/
def approvalCountAfter
    (r : Option Session × List OutMsg × Option (Nat × String)) : Nat :=
  match r.1 with
  | none => 0
  | some s => s.approvals.length

theorem jsStartsWith_palette_not_style (p : String)
    (h : jsStartsWith p "palette" = true) : jsStartsWith p "style" = false := by
  unfold jsStartsWith at h ⊢
  match hd : p.data with
  | [] => simp [hd, List.isPrefixOf] at h
  | c :: rest =>
    simp [hd, List.isPrefixOf] at h ⊢
    rcases h with ⟨h1, _⟩
    subst h1
    simp

theorem jsStartsWith_finish_not_style (p : String)
    (h : jsStartsWith p "finish" = true) : jsStartsWith p "style" = false := by
  unfold jsStartsWith at h ⊢
  match hd : p.data with
  | [] => simp [hd, List.isPrefixOf] at h
  | c :: rest =>
    simp [hd, List.isPrefixOf] at h ⊢
    rcases h with ⟨h1, _⟩
    subst h1
    simp

theorem jsStartsWith_finish_not_palette (p : String)
    (h : jsStartsWith p "finish" = true) : jsStartsWith p "palette" = false := by
  unfold jsStartsWith at h ⊢
  match hd : p.data with
  | [] => simp [hd, List.isPrefixOf] at h
  | c :: rest =>
    simp [hd, List.isPrefixOf] at h ⊢
    rcases h with ⟨h1, _⟩
    subst h1
    simp

theorem lookup_jsSet_self (m : List (String × Option String)) (k : String)
    (v : Option String) : (jsSet m k v).lookup k = some v := by
  induction m with
  | nil => simp [jsSet, List.lookup]
  | cons hd t ih =>
    obtain ⟨k1, v1⟩ := hd
    by_cases hk : k1 = k
    · subst hk
      simp [jsSet, List.lookup]
    · have hb : (k == k1) = false := by
        simp [Ne.symm hk]
      simp [jsSet, hk, List.lookup, hb, ih]

theorem lookup_jsSet_ne (m : List (String × Option String)) (k : String)
    (v : Option String) (k1 : String) (hne : k1 ≠ k) :
    (jsSet m k v).lookup k1 = m.lookup k1 := by
  have hb : (k1 == k) = false := by
    simp [hne]
  induction m with
  | nil => simp [jsSet, List.lookup, hb]
  | cons hd t ih =>
    obtain ⟨k2, v2⟩ := hd
    by_cases hk : k2 = k
    · subst hk
      simp [jsSet, List.lookup, hb]
    · simp [jsSet, hk, List.lookup, ih]

/-- C1: for every UI_RESPONSE whose promptId begins, case-insensitively, with
"style", "palette" or "finish", handling replaces exactly the corresponding
scalar field of the bound session's brief with selectedOptionId, records the
approval for the choice, and leaves every other field of the brief (the
other scalars, vibe, rooms, constraints, timeline, budget, openQuestions)
unchanged. -/
theorem ui_response_scalar_updates_exactly_one_field
    (now : Int) (sid : String) (s : Session) (p v : String)
    (ok : Option Bool) (msg : Option String) (tsv : Option Int) :
    (jsStartsWith (jsToLower p) "style" = true →
      handleFrame now sid (some s)
          (Frame.obj (some "UI_RESPONSE") (some p) (some v) ok msg tsv) =
        (some { s with
            approvals := s.approvals ++ [⟨now, "UI_RESPONSE " ++ p ++ " -> " ++ v⟩],
            brief := { s.brief with style := some v } }, [], none)) ∧
    (jsStartsWith (jsToLower p) "palette" = true →
      handleFrame now sid (some s)
          (Frame.obj (some "UI_RESPONSE") (some p) (some v) ok msg tsv) =
        (some { s with
            approvals := s.approvals ++ [⟨now, "UI_RESPONSE " ++ p ++ " -> " ++ v⟩],
            brief := { s.brief with palette := some v } }, [], none)) ∧
    (jsStartsWith (jsToLower p) "finish" = true →
      handleFrame now sid (some s)
          (Frame.obj (some "UI_RESPONSE") (some p) (some v) ok msg tsv) =
        (some { s with
            approvals := s.approvals ++ [⟨now, "UI_RESPONSE " ++ p ++ " -> " ++ v⟩],
            brief := { s.brief with finish := some v } }, [], none)) := by
  refine ⟨fun h => ?_, fun h => ?_, fun h => ?_⟩
  · simp [handleFrame, handleParsed, h, jsShow, addApproval, updateBrief,
      mergeBrief]
  · have h1 := jsStartsWith_palette_not_style _ h
    simp [handleFrame, handleParsed, h, h1, jsShow, addApproval, updateBrief,
      mergeBrief]
  · have h1 := jsStartsWith_finish_not_style _ h
    have h2 := jsStartsWith_finish_not_palette _ h
    simp [handleFrame, handleParsed, h, h1, h2, jsShow, addApproval,
      updateBrief, mergeBrief]

/-- Witness for C1 at the spec's end-to-end example: promptId "style_modern"
with option "bold" sets brief.style and nothing else. -/
theorem ui_response_scalar_witness :
    jsStartsWith (jsToLower "style_modern") "style" = true ∧
    handleFrame 7 "abc123" (some (createSession "abc123" 0))
        (Frame.obj (some "UI_RESPONSE") (some "style_modern") (some "bold")
          none none none) =
      (some { createSession "abc123" 0 with
          approvals := [⟨7, "UI_RESPONSE style_modern -> bold"⟩],
          brief := { emptyBrief with style := some "bold" } }, [], none) := by
  refine ⟨by decide, ?_⟩
  have h := (ui_response_scalar_updates_exactly_one_field 7 "abc123"
    (createSession "abc123" 0) "style_modern" "bold" none none none).1
    (by decide)
  simpa [createSession] using h

/-- C2: for every UI_RESPONSE whose promptId does not begin
(case-insensitively) with "style", "palette" or "finish", handling adds or
overwrites exactly the key promptId in the bound session's brief.constraints,
mapping it to selectedOptionId, and every pre-existing constraints key other
than that one keeps its prior value. -/
theorem ui_response_constraints_updates_exactly_one_key
    (now : Int) (sid : String) (s : Session) (p v : String)
    (ok : Option Bool) (msg : Option String) (tsv : Option Int)
    (h1 : jsStartsWith (jsToLower p) "style" = false)
    (h2 : jsStartsWith (jsToLower p) "palette" = false)
    (h3 : jsStartsWith (jsToLower p) "finish" = false) :
    handleFrame now sid (some s)
        (Frame.obj (some "UI_RESPONSE") (some p) (some v) ok msg tsv) =
      (some { s with
          approvals := s.approvals ++ [⟨now, "UI_RESPONSE " ++ p ++ " -> " ++ v⟩],
          brief := { s.brief with
            constraints := jsSet s.brief.constraints p (some v) } },
       [], none) ∧
    (jsSet s.brief.constraints p (some v)).lookup p = some (some v) ∧
    ∀ k, k ≠ p →
      (jsSet s.brief.constraints p (some v)).lookup k =
        s.brief.constraints.lookup k := by
  refine ⟨?_, lookup_jsSet_self _ _ _, fun k hk => lookup_jsSet_ne _ _ _ _ hk⟩
  simp [handleFrame, handleParsed, h1, h2, h3, jsShow, addApproval,
    updateBrief, mergeBrief]

/-- Witness for C2: promptId "rooms_pref" lands in constraints, the other
pre-existing constraint key keeps its value. -/
theorem ui_response_constraints_witness :
    jsStartsWith (jsToLower "rooms_pref") "style" = false ∧
    handleFrame 3 "abc123"
        (some { createSession "abc123" 0 with
            brief := { emptyBrief with constraints := [("mood", some "warm")] } })
        (Frame.obj (some "UI_RESPONSE") (some "rooms_pref") (some "living")
          none none none) =
      (some { createSession "abc123" 0 with
          approvals := [⟨3, "UI_RESPONSE rooms_pref -> living"⟩],
          brief := { emptyBrief with
            constraints := [("mood", some "warm"), ("rooms_pref", some "living")] } },
       [], none) ∧
    ([("mood", some "warm"), ("rooms_pref", some "living")] :
        List (String × Option String)).lookup "mood" = some (some "warm") := by
  refine ⟨by decide, ?_, by decide⟩
  have h := (ui_response_constraints_updates_exactly_one_key 3 "abc123"
      { createSession "abc123" 0 with
          brief := { emptyBrief with constraints := [("mood", some "warm")] } }
      "rooms_pref" "living" none none none (by decide) (by decide)
      (by decide)).1
  simpa [createSession, emptyBrief, jsSet] using h

/-- C3 counterexample: the claim says updateBrief shallow-merges
updates.constraints into the current constraints, preserving keys not
present in the update; but the spread replaces the mapping wholesale, so
the pre-existing key "a" is dropped. -/
theorem updateBrief_constraints_not_merged_counterexample :
    (mergeBrief { emptyBrief with constraints := [("a", some "1")] }
        { constraints := some [("b", some "2")] }).constraints =
      [("b", some "2")] ∧
    (mergeBrief { emptyBrief with constraints := [("a", some "1")] }
        { constraints := some [("b", some "2")] }).constraints.lookup "a" =
      none := by
  decide

/-- C3 as amended: updateBrief's spread `{ ...session.brief, ...updates }`
replaces every key present in updates wholesale — including constraints,
which it does not shallow-merge — and leaves keys absent from updates
untouched.  (The shallow merge of constraints is performed by the
UI_RESPONSE caller, which builds the merged mapping before calling
updateBrief.) -/
theorem updateBrief_replaces_fields_wholesale
    (b : PaintingBrief) (u : BriefUpdates) :
    (∀ c, u.constraints = some c → (mergeBrief b u).constraints = c) ∧
    (u.constraints = none → (mergeBrief b u).constraints = b.constraints) ∧
    (∀ x, u.style = some x → (mergeBrief b u).style = x) ∧
    (u.style = none → (mergeBrief b u).style = b.style) ∧
    (∀ x, u.palette = some x → (mergeBrief b u).palette = x) ∧
    (u.palette = none → (mergeBrief b u).palette = b.palette) ∧
    (∀ x, u.finish = some x → (mergeBrief b u).finish = x) ∧
    (u.finish = none → (mergeBrief b u).finish = b.finish) ∧
    (∀ x, u.vibe = some x → (mergeBrief b u).vibe = x) ∧
    (u.vibe = none → (mergeBrief b u).vibe = b.vibe) ∧
    (∀ x, u.rooms = some x → (mergeBrief b u).rooms = x) ∧
    (u.rooms = none → (mergeBrief b u).rooms = b.rooms) ∧
    (∀ x, u.timeline = some x → (mergeBrief b u).timeline = x) ∧
    (u.timeline = none → (mergeBrief b u).timeline = b.timeline) ∧
    (∀ x, u.budget = some x → (mergeBrief b u).budget = x) ∧
    (u.budget = none → (mergeBrief b u).budget = b.budget) ∧
    (∀ x, u.openQuestions = some x → (mergeBrief b u).openQuestions = x) ∧
    (u.openQuestions = none →
      (mergeBrief b u).openQuestions = b.openQuestions) := by
  refine ⟨fun c hc => by simp [mergeBrief, hc], fun hc => by simp [mergeBrief, hc],
    fun x hx => by simp [mergeBrief, hx], fun hx => by simp [mergeBrief, hx],
    fun x hx => by simp [mergeBrief, hx], fun hx => by simp [mergeBrief, hx],
    fun x hx => by simp [mergeBrief, hx], fun hx => by simp [mergeBrief, hx],
    fun x hx => by simp [mergeBrief, hx], fun hx => by simp [mergeBrief, hx],
    fun x hx => by simp [mergeBrief, hx], fun hx => by simp [mergeBrief, hx],
    fun x hx => by simp [mergeBrief, hx], fun hx => by simp [mergeBrief, hx],
    fun x hx => by simp [mergeBrief, hx], fun hx => by simp [mergeBrief, hx],
    fun x hx => by simp [mergeBrief, hx], fun hx => by simp [mergeBrief, hx]⟩

/-- Witness for the amended C3: a present constraints key replaces the
mapping wholesale while the absent style key is untouched. -/
theorem updateBrief_replaces_fields_witness :
    (mergeBrief
        { emptyBrief with style := some "old", constraints := [("x", some "1")] }
        { constraints := some [("y", some "2")] }).constraints =
      [("y", some "2")] ∧
    (mergeBrief
        { emptyBrief with style := some "old", constraints := [("x", some "1")] }
        { constraints := some [("y", some "2")] }).style = some "old" := by
  have h := updateBrief_replaces_fields_wholesale
      { emptyBrief with style := some "old", constraints := [("x", some "1")] }
      { constraints := some [("y", some "2")] }
  exact ⟨h.1 _ rfl, h.2.2.2.1 rfl⟩

theorem option_getD_getD {α : Type} (o : Option α) (x : α) :
    o.getD (o.getD x) = o.getD x := by
  cases o <;> rfl

/-- C9: the brief-merge spread is idempotent under repeated identical
updates: applying the same updates record twice yields the same brief as
applying it once. -/
theorem mergeBrief_idempotent (b : PaintingBrief) (u : BriefUpdates) :
    mergeBrief (mergeBrief b u) u = mergeBrief b u := by
  simp [mergeBrief, option_getD_getD]

/-- C4 counterexample: a parsed object frame whose type is "FOO" produces no
outbound message at all — in particular no ERROR reply, contrary to the
claim — and leaves the session untouched. -/
theorem unknown_type_no_error_reply_counterexample :
    handleFrame 0 "abc123" (some (createSession "abc123" 0))
        (Frame.obj (some "FOO") none none none none none) =
      (some (createSession "abc123" 0), [], none) := by
  decide

/-- C4 as amended: for every inbound frame that parses as a JSON object
whose type is not UI_RESPONSE, TODO_CONFIRM, AGENT_NOTE or PING, the router
sends no reply (the frame is silently ignored) and performs no mutation of
the session: no approval appended, brief unchanged. -/
theorem unknown_type_silently_ignored
    (now : Int) (sid : String) (sess : Option Session)
    (ty pid sel : Option String) (ok : Option Bool) (msg : Option String)
    (tsv : Option Int)
    (h1 : ty ≠ some "UI_RESPONSE") (h2 : ty ≠ some "TODO_CONFIRM")
    (h3 : ty ≠ some "AGENT_NOTE") (h4 : ty ≠ some "PING") :
    handleFrame now sid sess (Frame.obj ty pid sel ok msg tsv) =
      (sess, [], none) := by
  simp [handleFrame, handleParsed, h1, h2, h3, h4]

/-- Witness for the amended C4 at a concrete unrecognized frame type. -/
theorem unknown_type_silently_ignored_witness :
    handleFrame 1 "abc123" (some (createSession "abc123" 0))
        (Frame.obj (some "BOGUS") (some "x") (some "y") none none none) =
      (some (createSession "abc123" 0), [], none) :=
  unknown_type_silently_ignored 1 "abc123" (some (createSession "abc123" 0))
    (some "BOGUS") (some "x") (some "y") none none none
    (by decide) (by decide) (by decide) (by decide)

/-- C5: a TODO_CONFIRM with ok=false on a bound session records the approval
and replies with a TODO_PREVIEW whose items are exactly the fixed 5-element
literal list, in order, without closing the connection. -/
theorem todo_confirm_false_sends_fixed_preview
    (now : Int) (sid : String) (s : Session) (pid sel : Option String)
    (msg : Option String) (tsv : Option Int) :
    handleFrame now sid (some s)
        (Frame.obj (some "TODO_CONFIRM") pid sel (some false) msg tsv) =
      (some { s with
          approvals := s.approvals ++ [⟨now, "TODO_CONFIRM ok=false"⟩] },
       [OutMsg.todoPreview
          ["Review and finalize painting style preferences",
           "Confirm color palette selections",
           "Schedule initial consultation call",
           "Review project timeline and milestones",
           "Prepare room measurements and photos"]],
       none) := by
  simp [handleFrame, handleParsed, fallbackTodoItems, jsShowBool, addApproval]

/-- C6: a TODO_CONFIRM with ok=true on a bound session records the approval,
sends CALL_FINISHED carrying the bound session's id, closes the connection
with code 1000 and reason "Call finished", and no later inbound frame is
processed. -/
theorem todo_confirm_true_finishes_and_closes
    (now : Int) (sid : String) (s : Session) (pid sel : Option String)
    (msg : Option String) (tsv : Option Int) (rest : List (Int × Frame))
    (hid : s.id = sid) :
    runConn sid (some s)
        ((now, Frame.obj (some "TODO_CONFIRM") pid sel (some true) msg tsv)
          :: rest) =
      (some { s with
          approvals := s.approvals ++ [⟨now, "TODO_CONFIRM ok=true"⟩] },
       [OutMsg.callFinished s.id], some (1000, "Call finished")) := by
  subst hid
  simp [runConn, handleFrame, handleParsed, jsShowBool, addApproval]

/-- Witness for C6: after the ok=true confirmation the connection is closed
and a pending PING is never answered. -/
theorem todo_confirm_true_witness :
    runConn "abc123" (some (createSession "abc123" 0))
        [(1, Frame.obj (some "TODO_CONFIRM") none none (some true) none none),
         (2, Frame.obj (some "PING") none none none none (some 9))] =
      (some { createSession "abc123" 0 with
          approvals := [⟨1, "TODO_CONFIRM ok=true"⟩] },
       [OutMsg.callFinished "abc123"], some (1000, "Call finished")) := by
  have h := todo_confirm_true_finishes_and_closes 1 "abc123"
      (createSession "abc123" 0) none none none none
      [(2, Frame.obj (some "PING") none none none none (some 9))] rfl
  simpa [createSession] using h

/-- C7 counterexample: an AGENT_NOTE whose message is the empty string is a
recognized frame handled without error (no ERROR reply), is not a PING, and
appends no approval — contradicting the claim that every message handled
without error, PING excepted, appends exactly one. -/
theorem agent_note_empty_appends_none_counterexample :
    handleFrame 0 "abc123" (some (createSession "abc123" 0))
        (Frame.obj (some "AGENT_NOTE") none none none (some "") none) =
      (some (createSession "abc123" 0), [], none) := by
  decide

/-- C7 as amended: every recognized inbound message handled without error
appends exactly one approval to the bound session's log, except PING and an
AGENT_NOTE with an empty or missing message, which append none; in
particular UI_RESPONSE (with promptId present), TODO_CONFIRM (any ok value)
and AGENT_NOTE with a non-empty message each append exactly one. -/
theorem handled_messages_append_one_approval
    (now : Int) (sid : String) (s : Session) :
    (∀ (p : String) (sel : Option String) (ok : Option Bool)
        (msg : Option String) (tsv : Option Int),
      approvalCountAfter (handleFrame now sid (some s)
          (Frame.obj (some "UI_RESPONSE") (some p) sel ok msg tsv)) =
        s.approvals.length + 1) ∧
    (∀ (pid sel : Option String) (ok : Option Bool) (msg : Option String)
        (tsv : Option Int),
      approvalCountAfter (handleFrame now sid (some s)
          (Frame.obj (some "TODO_CONFIRM") pid sel ok msg tsv)) =
        s.approvals.length + 1) ∧
    (∀ (pid sel : Option String) (ok : Option Bool) (m : String)
        (tsv : Option Int), m ≠ "" →
      approvalCountAfter (handleFrame now sid (some s)
          (Frame.obj (some "AGENT_NOTE") pid sel ok (some m) tsv)) =
        s.approvals.length + 1) ∧
    (∀ (pid sel : Option String) (ok : Option Bool) (tsv : Option Int),
      approvalCountAfter (handleFrame now sid (some s)
          (Frame.obj (some "AGENT_NOTE") pid sel ok (some "") tsv)) =
        s.approvals.length) ∧
    (∀ (pid sel : Option String) (ok : Option Bool) (tsv : Option Int),
      approvalCountAfter (handleFrame now sid (some s)
          (Frame.obj (some "AGENT_NOTE") pid sel ok none tsv)) =
        s.approvals.length) ∧
    (∀ (pid sel : Option String) (ok : Option Bool) (msg : Option String)
        (tsv : Option Int),
      approvalCountAfter (handleFrame now sid (some s)
          (Frame.obj (some "PING") pid sel ok msg tsv)) =
        s.approvals.length) := by
  refine ⟨fun p sel ok msg tsv => ?_, fun pid sel ok msg tsv => ?_,
    fun pid sel ok m tsv hm => ?_, fun pid sel ok tsv => ?_,
    fun pid sel ok tsv => ?_, fun pid sel ok msg tsv => ?_⟩
  · simp only [handleFrame, handleParsed]
    split_ifs <;>
      simp_all [approvalCountAfter, addApproval, updateBrief]
  · simp only [handleFrame, handleParsed]
    split_ifs <;>
      simp_all [approvalCountAfter, addApproval]
  · simp only [handleFrame, handleParsed]
    split_ifs <;>
      simp_all [approvalCountAfter, addApproval]
  · simp [handleFrame, handleParsed, approvalCountAfter]
  · simp [handleFrame, handleParsed, approvalCountAfter]
  · simp [handleFrame, handleParsed, approvalCountAfter]

/-- Witness for the amended C7: a non-empty AGENT_NOTE on a fresh session
leaves exactly one approval. -/
theorem handled_messages_append_one_approval_witness :
    approvalCountAfter (handleFrame 0 "abc123"
        (some (createSession "abc123" 0))
        (Frame.obj (some "AGENT_NOTE") none none none (some "call back") none)) =
      1 := by
  have h := (handled_messages_append_one_approval 0 "abc123"
      (createSession "abc123" 0)).2.2.1 none none none "call back" none
      (by decide)
  simpa [createSession] using h

/-- C8 counterexample: the frame `{"type":"UI_RESPONSE"}` (no promptId) is
valid JSON whose handling throws at `promptId.toLowerCase()`; the handler
replies with an ERROR and keeps the connection open, but the approval
appended before the throw persists, so approvals are NOT left exactly as
they were. -/
theorem handling_throw_mutates_approvals_counterexample :
    (createSession "abc123" 0).approvals = [] ∧
    handleFrame 0 "abc123" (some (createSession "abc123" 0))
        (Frame.obj (some "UI_RESPONSE") none none none none none) =
      (some { createSession "abc123" 0 with
          approvals := [⟨0, "UI_RESPONSE undefined -> undefined"⟩] },
       [OutMsg.error promptIdTypeError], none) := by
  exact ⟨rfl, by decide⟩

/-- C8 as amended: per-message fault isolation.  A frame that is not valid
JSON yields exactly one ERROR reply, no close, and no session mutation.  A
parsed frame whose handling throws (UI_RESPONSE without a promptId) yields
exactly one ERROR reply and no close, but the mutations applied before the
throw persist: its approval is already appended when the TypeError is
raised. -/
theorem per_message_fault_isolation (now : Int) (sid : String) :
    (∀ (sess : Option Session) (e : String),
      handleFrame now sid sess (Frame.invalidJson e) =
        (sess, [OutMsg.error e], none)) ∧
    (∀ (s : Session) (sel : Option String) (ok : Option Bool)
        (msg : Option String) (tsv : Option Int),
      handleFrame now sid (some s)
          (Frame.obj (some "UI_RESPONSE") none sel ok msg tsv) =
        (some { s with approvals := s.approvals ++
            [⟨now, "UI_RESPONSE undefined -> " ++ jsShow sel⟩] },
         [OutMsg.error promptIdTypeError], none)) := by
  refine ⟨fun sess e => rfl, fun s sel ok msg tsv => ?_⟩
  simp [handleFrame, handleParsed, jsShow, addApproval]

/-- C10: classification of a UI_RESPONSE promptId is case-insensitive but
constraint storage is case-preserving.  When the lowercased promptId begins
with "style", "palette" or "finish" the corresponding scalar is updated and
constraints are untouched; otherwise the key written into brief.constraints
is the promptId exactly as received, so the binding of the lowercased form
(when it differs) is unchanged. -/
theorem classification_case_insensitive_storage_case_preserving
    (now : Int) (sid : String) (s : Session) (p v : String)
    (ok : Option Bool) (msg : Option String) (tsv : Option Int) :
    (jsStartsWith (jsToLower p) "style" = true →
      handleFrame now sid (some s)
          (Frame.obj (some "UI_RESPONSE") (some p) (some v) ok msg tsv) =
        (some { s with
            approvals := s.approvals ++ [⟨now, "UI_RESPONSE " ++ p ++ " -> " ++ v⟩],
            brief := { s.brief with style := some v } }, [], none)) ∧
    (jsStartsWith (jsToLower p) "palette" = true →
      handleFrame now sid (some s)
          (Frame.obj (some "UI_RESPONSE") (some p) (some v) ok msg tsv) =
        (some { s with
            approvals := s.approvals ++ [⟨now, "UI_RESPONSE " ++ p ++ " -> " ++ v⟩],
            brief := { s.brief with palette := some v } }, [], none)) ∧
    (jsStartsWith (jsToLower p) "finish" = true →
      handleFrame now sid (some s)
          (Frame.obj (some "UI_RESPONSE") (some p) (some v) ok msg tsv) =
        (some { s with
            approvals := s.approvals ++ [⟨now, "UI_RESPONSE " ++ p ++ " -> " ++ v⟩],
            brief := { s.brief with finish := some v } }, [], none)) ∧
    (jsStartsWith (jsToLower p) "style" = false →
     jsStartsWith (jsToLower p) "palette" = false →
     jsStartsWith (jsToLower p) "finish" = false →
      handleFrame now sid (some s)
          (Frame.obj (some "UI_RESPONSE") (some p) (some v) ok msg tsv) =
        (some { s with
            approvals := s.approvals ++ [⟨now, "UI_RESPONSE " ++ p ++ " -> " ++ v⟩],
            brief := { s.brief with
              constraints := jsSet s.brief.constraints p (some v) } },
         [], none) ∧
      (jsSet s.brief.constraints p (some v)).lookup p = some (some v) ∧
      (jsToLower p ≠ p →
        (jsSet s.brief.constraints p (some v)).lookup (jsToLower p) =
          s.brief.constraints.lookup (jsToLower p))) := by
  refine ⟨fun h => ?_, fun h => ?_, fun h => ?_,
    fun h1 h2 h3 => ⟨?_, lookup_jsSet_self _ _ _,
      fun hlp => lookup_jsSet_ne _ _ _ _ hlp⟩⟩
  · simp [handleFrame, handleParsed, h, jsShow, addApproval, updateBrief,
      mergeBrief]
  · have hs := jsStartsWith_palette_not_style _ h
    simp [handleFrame, handleParsed, h, hs, jsShow, addApproval, updateBrief,
      mergeBrief]
  · have hs := jsStartsWith_finish_not_style _ h
    have hp := jsStartsWith_finish_not_palette _ h
    simp [handleFrame, handleParsed, h, hs, hp, jsShow, addApproval,
      updateBrief, mergeBrief]
  · simp [handleFrame, handleParsed, h1, h2, h3, jsShow, addApproval,
      updateBrief, mergeBrief]

/-- Witness for C10: "STYLE_x", "PALETTE_Warm" and "Finish_MATTE" are each
classified case-insensitively into the corresponding scalar with constraints
untouched, while "Budget_Q1" is stored in constraints under its original
casing (the key "budget_q1" stays absent). -/
theorem classification_case_witness :
    jsStartsWith (jsToLower "STYLE_x") "style" = true ∧
    handleFrame 2 "abc123" (some (createSession "abc123" 0))
        (Frame.obj (some "UI_RESPONSE") (some "STYLE_x") (some "bold")
          none none none) =
      (some { createSession "abc123" 0 with
          approvals := [⟨2, "UI_RESPONSE STYLE_x -> bold"⟩],
          brief := { emptyBrief with style := some "bold" } }, [], none) ∧
    handleFrame 2 "abc123" (some (createSession "abc123" 0))
        (Frame.obj (some "UI_RESPONSE") (some "PALETTE_Warm") (some "warm")
          none none none) =
      (some { createSession "abc123" 0 with
          approvals := [⟨2, "UI_RESPONSE PALETTE_Warm -> warm"⟩],
          brief := { emptyBrief with palette := some "warm" } }, [], none) ∧
    handleFrame 2 "abc123" (some (createSession "abc123" 0))
        (Frame.obj (some "UI_RESPONSE") (some "Finish_MATTE") (some "matte")
          none none none) =
      (some { createSession "abc123" 0 with
          approvals := [⟨2, "UI_RESPONSE Finish_MATTE -> matte"⟩],
          brief := { emptyBrief with finish := some "matte" } }, [], none) ∧
    handleFrame 2 "abc123" (some (createSession "abc123" 0))
        (Frame.obj (some "UI_RESPONSE") (some "Budget_Q1") (some "5k")
          none none none) =
      (some { createSession "abc123" 0 with
          approvals := [⟨2, "UI_RESPONSE Budget_Q1 -> 5k"⟩],
          brief := { emptyBrief with
            constraints := [("Budget_Q1", some "5k")] } }, [], none) ∧
    ([("Budget_Q1", some "5k")] :
        List (String × Option String)).lookup "budget_q1" = none := by
  refine ⟨by decide, ?_, ?_, ?_, ?_, by decide⟩
  · have h := (classification_case_insensitive_storage_case_preserving 2
        "abc123" (createSession "abc123" 0) "STYLE_x" "bold" none none
        none).1 (by decide)
    simpa [createSession, emptyBrief] using h
  · have h := (classification_case_insensitive_storage_case_preserving 2
        "abc123" (createSession "abc123" 0) "PALETTE_Warm" "warm" none none
        none).2.1 (by decide)
    simpa [createSession, emptyBrief] using h
  · have h := (classification_case_insensitive_storage_case_preserving 2
        "abc123" (createSession "abc123" 0) "Finish_MATTE" "matte" none none
        none).2.2.1 (by decide)
    simpa [createSession, emptyBrief] using h
  · have h := ((classification_case_insensitive_storage_case_preserving 2
        "abc123" (createSession "abc123" 0) "Budget_Q1" "5k" none none
        none).2.2.2 (by decide) (by decide) (by decide)).1
    simpa [createSession, emptyBrief, jsSet] using h
